import Mathlib

/-
  Shallow embedding of the open311-services entity repository and request
  handlers (Go sources: repository/repository.go, handler/request/requests.go,
  handler/service/services.go).

  Modelling conventions:
  - The DynamoDB backing store is a typed key-value state `Db` of association
    lists, one per table.  `GetItem` is a key lookup, `PutItem` replaces the
    record under its key, `UpdateItem` with the list-append expression is a
    read-modify-write on the Users table.
  - Every fallible backend step (session creation, GetItem, PutItem,
    UpdateItem, marshalling, entropy read) is driven by an explicit
    environment record of failure flags, so theorems quantify over all
    failure interleavings the Go code distinguishes.
  - Go errors are modelled by `RepoErr` (notFound vs backend, with message);
    Go functions returning `(value, error)` become pairs
    `value x Option RepoErr`, faithful to call sites such as
    `service, _ := GetService(...)` that use the value even on error.
  - `float32` latitude/longitude are modelled as rationals: the handler only
    compares them with literal 0, and JSON decoding cannot produce NaN, so
    equality with zero agrees with the Go comparison.
  - `time.Time` is modelled by `GoTime` (calendar fields for RFC3339
    formatting plus the UnixNano reading used for ULID generation).
-/

namespace Open311

/-- Crockford base32 alphabet used by oklog/ulid string encoding. -/
def crockfordDigits : List Char := "0123456789ABCDEFGHJKMNPQRSTVWXYZ".toList

/-- Open311 `AttributeValue` (repository.go). -/
structure AttributeValue where
  key : String
  name : String
deriving DecidableEq, Repr

/-- Open311 `Service` (repository.go). -/
structure Service where
  serviceCode : String
  serviceName : String
  description : String
  metadata : Bool
  type : String
  keywords : List String
  group : String
deriving DecidableEq, Repr

/-- Go zero value of `Service`. -/
def Service.empty : Service :=
  { serviceCode := "", serviceName := "", description := "", metadata := false,
    type := "", keywords := [], group := "" }

/-- Open311 `Description` entry (repository.go). -/
structure Description where
  description : String
  timestamp : String
deriving DecidableEq, Repr

/-- Open311 `Media` entry (repository.go). -/
structure Media where
  mediaURL : String
  timestamp : String
deriving DecidableEq, Repr

/-- Open311 `Request` (repository.go).  `float32` lat/lon are rationals,
`int32` zipcode is an integer (no claim involves overflow). -/
structure Request where
  serviceRequestID : String
  status : String
  statusNotes : String
  serviceName : String
  serviceCode : String
  descriptions : List Description
  agencyResponsible : String
  serviceNotice : String
  requestedDateTime : String
  updatedDateTime : String
  expectedDateTime : String
  address : String
  addressID : String
  zipCode : Int
  latitude : Rat
  longitude : Rat
  mediaURLs : List Media
  values : List AttributeValue
deriving DecidableEq, Repr

/-- Go zero value of `Request`. -/
def Request.empty : Request :=
  { serviceRequestID := "", status := "", statusNotes := "", serviceName := "",
    serviceCode := "", descriptions := [], agencyResponsible := "",
    serviceNotice := "", requestedDateTime := "", updatedDateTime := "",
    expectedDateTime := "", address := "", addressID := "", zipCode := 0,
    latitude := 0, longitude := 0, mediaURLs := [], values := [] }

/-- Open311 `RequestResponse` projection (repository.go). -/
structure RequestResponse where
  serviceRequestID : String
  serviceNotice : String
  accountID : String
deriving DecidableEq, Repr

/-- Go zero value of `RequestResponse`. -/
def RequestResponse.empty : RequestResponse :=
  { serviceRequestID := "", serviceNotice := "", accountID := "" }

/-- Open311 `User` (repository.go). -/
structure User where
  accountID : String
  groups : List String
  submittedRequests : List String
  watchedRequests : List String
deriving DecidableEq, Repr

/-- Go zero value of `User`. -/
def User.empty : User :=
  { accountID := "", groups := [], submittedRequests := [], watchedRequests := [] }

/-- Open311 `City` (repository.go). -/
structure City where
  cityName : String
  endpoint : String
deriving DecidableEq, Repr

/-- Go zero value of `City`. -/
def City.empty : City := { cityName := "", endpoint := "" }

/-- Request status constants (repository.go). -/
def RequestOpen : String := "open"

def RequestAccepted : String := "accepted"

def RequestInProgress : String := "inProgress"

def RequestClosed : String := "closed"

/-- Errors surfaced by the repository: the typed not-found errors
(`ServiceCodeNotFoundErr`, `RequestIdNotFoundErr`, `AccountIDNotFoundErr`,
`CityNotFoundErr`) versus every other (backend/transport/marshal) failure. -/
inductive RepoErr where
  | notFound (msg : String)
  | backend (msg : String)
deriving DecidableEq, Repr

/-- Is this error one of the typed not-found errors? -/
def RepoErr.isNotFound : RepoErr → Bool
  | .notFound _ => true
  | .backend _ => false

/-- Is this error a backend-class error? -/
def RepoErr.isBackend : RepoErr → Bool
  | .notFound _ => false
  | .backend _ => true

/-- Go-style error slot holds a not-found error. -/
def errIsNotFound : Option RepoErr → Bool
  | some (.notFound _) => true
  | _ => false

/-- Go-style error slot holds a backend-class error. -/
def errIsBackend : Option RepoErr → Bool
  | some (.backend _) => true
  | _ => false

/-- A clock reading: calendar fields (as rendered by `Format(time.RFC3339)`)
together with the `UnixNano()` value of the same instant. -/
structure GoTime where
  year : Nat
  month : Nat
  day : Nat
  hour : Nat
  minute : Nat
  second : Nat
  tz : String
  unixNano : Int
deriving DecidableEq, Repr

/-- Zero-pad a natural number to width `w`, as Go time formatting does. -/
def pad (w n : Nat) : String :=
  let s := toString n
  String.mk (List.replicate (w - s.length) (Char.ofNat 48)) ++ s

/-- `t.Format(time.RFC3339)`: `YYYY-MM-DDTHH:MM:SS` plus the zone suffix. -/
def formatRFC3339 (t : GoTime) : String :=
  pad 4 t.year ++ "-" ++ pad 2 t.month ++ "-" ++ pad 2 t.day ++ "T" ++
    pad 2 t.hour ++ ":" ++ pad 2 t.minute ++ ":" ++ pad 2 t.second ++ t.tz

/-- The entropy source built by `rand.New(rand.NewSource(t.UnixNano()))`:
`bytes` is the (deterministic) byte stream produced from a given seed;
`readFail` injects the read failure `ulid.New` can report. -/
structure EntropySrc where
  readFail : Bool
  bytes : Int → List Nat

/-- `ulid.Timestamp(t)`: milliseconds since the Unix epoch. -/
def ulidTimestamp (t : GoTime) : Nat := (t.unixNano / 1000000).toNat

/-- `ulid.ULID.String()`: 48-bit millisecond timestamp and 80-bit entropy,
rendered as 26 Crockford base32 characters, most significant first. -/
def ulidString (ms : Nat) (entropy : List Nat) : String :=
  let eNat := entropy.foldl (fun a b => a * 256 + b % 256) 0
  let n := ms % 2 ^ 48 * 2 ^ 80 + eNat % 2 ^ 80
  String.mk ((List.range 26).map
    (fun i => crockfordDigits.getD (n / 32 ^ (25 - i) % 32) (Char.ofNat 48)))

/-- `genRequestID` (repository.go): reads the clock once, seeds the PRNG with
`t.UnixNano()`, builds a ULID from `ulid.Timestamp(t)` and entropy drawn from
that PRNG, and prefixes `SR-`. -/
def genRequestID (src : EntropySrc) (t : GoTime) : Except RepoErr String :=
  if src.readFail then
    .error (.backend "Unable to generate request id")
  else
    .ok ("SR-" ++ ulidString (ulidTimestamp t) (src.bytes t.unixNano))

/-- One DynamoDB table: association list from key attribute to record. -/
def lookupKey {α : Type} (l : List (String × α)) (k : String) : Option α :=
  match l.find? (fun p => p.1 == k) with
  | some p => some p.2
  | none => none

/-- `PutItem` / item-creating `UpdateItem`: replace the record under `k`. -/
def insertKey {α : Type} (l : List (String × α)) (k : String) (v : α) :
    List (String × α) :=
  (k, v) :: l.filter (fun p => p.1 != k)

/-- The backing store: one table per entity collection. -/
structure Db where
  services : List (String × Service)
  requests : List (String × Request)
  users : List (String × User)
  cities : List (String × City)
deriving Repr

/-- Failure environment for a single point lookup: session creation failure
and `GetItem` transport failure. -/
structure GetEnv where
  clientFail : Bool
  getFail : Bool
deriving DecidableEq, Repr

/-- `GetService` (repository.go): point lookup on the Services table;
unmarshalling a missing item yields the zero `Service`, and an empty
`service_code` field signals `ServiceCodeNotFoundErr`.  On the not-found path
the (unmarshalled) value is returned alongside the error, as in Go.  This
definition covers executions in which every fetched item deserializes
cleanly; the `UnmarshalMap`-failure branch, which returns a partially decoded
`Service` together with the error, is modelled by `GetServiceFull` below. -/
def GetService (env : GetEnv) (db : Db) (code : String) :
    Service × Option RepoErr :=
  if env.clientFail then
    (Service.empty, some (.backend "unable to establish session with AWS"))
  else if env.getFail then
    (Service.empty, some (.backend "unable to get specified service from database"))
  else
    let service := (lookupKey db.services code).getD Service.empty
    if service.serviceCode = "" then
      (service, some (.notFound "service not found"))
    else
      (service, none)

/-- `GetRequest` (repository.go): as `GetService`, but the not-found branch
returns a fresh zero `Request` (Go: `return Request{}, ...`). -/
def GetRequest (env : GetEnv) (db : Db) (id : String) :
    Request × Option RepoErr :=
  if env.clientFail then
    (Request.empty, some (.backend "unable to establish session with AWS"))
  else if env.getFail then
    (Request.empty, some (.backend "unable to get specified request from database"))
  else
    let request := (lookupKey db.requests id).getD Request.empty
    if request.serviceRequestID = "" then
      (Request.empty, some (.notFound "request not found"))
    else
      (request, none)

/-- `GetUser` (repository.go). -/
def GetUser (env : GetEnv) (db : Db) (accountID : String) :
    User × Option RepoErr :=
  if env.clientFail then
    (User.empty, some (.backend "unable to establish session with AWS"))
  else if env.getFail then
    (User.empty, some (.backend "unable to get specified user from database"))
  else
    let user := (lookupKey db.users accountID).getD User.empty
    if user.accountID = "" then
      (user, some (.notFound "user not found"))
    else
      (user, none)

/-- `GetCity` (repository.go). -/
def GetCity (env : GetEnv) (db : Db) (id : String) :
    City × Option RepoErr :=
  if env.clientFail then
    (City.empty, some (.backend "unable to establish session with AWS"))
  else if env.getFail then
    (City.empty, some (.backend "unable to get specified city from database"))
  else
    let city := (lookupKey db.cities id).getD City.empty
    if city.cityName = "" then
      (city, some (.notFound "city not found"))
    else
      (city, none)

/-- `IsValidServiceCode` (repository.go): returns false when the session
cannot be established, when the `GetItem` call fails (the error is only
logged; the response then has no `Item`), and when no record has the code. -/
def IsValidServiceCode (env : GetEnv) (db : Db) (code : String) : Bool :=
  if env.clientFail then
    false
  else if env.getFail then
    false
  else
    (lookupKey db.services code).isSome

/-- Failure environment for `trackUserRequest`. -/
structure TrackEnv where
  clientFail : Bool
  updateFail : Bool
deriving DecidableEq, Repr

/-- `trackUserRequest` (repository.go): `UpdateItem` on the Users table with
`SET #SR = list_append(if_not_exists(#SR, :empty_list), :r)`, creating the
item (with its `account_id` key attribute) when absent. -/
def trackUserRequest (env : TrackEnv) (db : Db) (requestID userID : String) :
    Option RepoErr × Db :=
  if env.clientFail then
    (some (.backend "unable to establish session with AWS"), db)
  else if env.updateFail then
    (some (.backend "failed to append request to list of Users requests"), db)
  else
    let user := (lookupKey db.users userID).getD { User.empty with accountID := userID }
    let user2 := { user with submittedRequests := user.submittedRequests ++ [requestID] }
    (none, { db with users := insertKey db.users userID user2 })

/-- Failure environment for one `SubmitRequest` execution: session failure,
the entropy source and the two clock readings, the inner `GetService`
environment, marshal/`PutItem` failures, and the `trackUserRequest`
environment. -/
structure SubmitEnv where
  clientFail : Bool
  entropy : EntropySrc
  idTime : GoTime
  stampTime : GoTime
  svcEnv : GetEnv
  marshalFail : Bool
  putFail : Bool
  trackEnv : TrackEnv

/-- `SubmitRequest` (repository.go): generate a fresh id (overwriting any
caller-supplied `ServiceRequestID`), stamp `RequestedDateTime`, set status
`open`, best-effort copy of the Service name/group (`service, _ :=`), put the
record, then best-effort append to the submitter's list; a tracking failure
is returned as an error while the response still carries the new id. -/
def SubmitRequest (env : SubmitEnv) (db : Db) (request : Request)
    (accountID : String) : (RequestResponse × Option RepoErr) × Db :=
  if env.clientFail then
    ((RequestResponse.empty, some (.backend "unable to establish session with AWS")), db)
  else
    match genRequestID env.entropy env.idTime with
    | .error _ =>
        ((RequestResponse.empty, some (.backend "failed to generate unique id for new request")), db)
    | .ok requestID =>
        let request1 := { request with serviceRequestID := requestID }
        let request2 := { request1 with requestedDateTime := formatRFC3339 env.stampTime }
        let request3 := { request2 with status := RequestOpen }
        let service := (GetService env.svcEnv db request3.serviceCode).1
        let request4 := { request3 with serviceName := service.serviceName,
                                        agencyResponsible := service.group }
        if env.marshalFail then
          ((RequestResponse.empty, some (.backend "Failed to marshal request")), db)
        else if env.putFail then
          ((RequestResponse.empty, some (.backend "failed to put new request in database")), db)
        else
          let db2 := { db with requests := insertKey db.requests requestID request4 }
          let response : RequestResponse :=
            { serviceRequestID := requestID, serviceNotice := "", accountID := accountID }
          match trackUserRequest env.trackEnv db2 requestID accountID with
          | (some _, db3) =>
              ((response, some (.backend "failed to append new request to list of requests for account")), db3)
          | (none, db3) => ((response, none), db3)

/-- Failure environment for `UpdateRequest`. -/
structure UpdateEnv where
  clientFail : Bool
  time : GoTime
  marshalFail : Bool
  putFail : Bool

/-- `UpdateRequest` (repository.go): stamp `UpdatedDateTime` with the current
instant and `PutItem` the full record under its `ServiceRequestID` —
an unconditional overwrite with no merge of stored values. -/
def UpdateRequest (env : UpdateEnv) (db : Db) (request : Request)
    (accountID : String) : (RequestResponse × Option RepoErr) × Db :=
  if env.clientFail then
    ((RequestResponse.empty, some (.backend "unable to establish session with AWS")), db)
  else
    let request1 := { request with updatedDateTime := formatRFC3339 env.time }
    if env.marshalFail then
      ((RequestResponse.empty, some (.backend "Failed to marshal request")), db)
    else if env.putFail then
      ((RequestResponse.empty, some (.backend "failed to put new request in database")), db)
    else
      let db2 := { db with requests := insertKey db.requests request1.serviceRequestID request1 }
      (({ serviceRequestID := request1.serviceRequestID, serviceNotice := "",
          accountID := accountID }, none), db2)

/-- HTTP response body: plain text, or the JSON serialization of a value
(encoding/json is an external collaborator; the marshalled value is carried
symbolically). -/
inductive Body where
  | text (s : String)
  | jsonService (v : Service)
  | jsonRequest (v : Request)
  | jsonRequestResponse (v : RequestResponse)
deriving DecidableEq, Repr

/-- `http.StatusText` for the codes the handlers use. -/
def statusText : Nat → String
  | 400 => "Bad Request"
  | 404 => "Not Found"
  | 405 => "Method Not Allowed"
  | 422 => "Unprocessable Entity"
  | 500 => "Internal Server Error"
  | _ => ""

/-- `clientError` (handlers): status code with its status phrase as body. -/
def clientError (status : Nat) : Nat × Body := (status, .text (statusText status))

/-- `getService` (handler/service/services.go): 404 naming the missing id on
`ServiceCodeNotFoundErr`, 500 on other errors, 200 with the entity body. -/
def getServiceHandler (env : GetEnv) (db : Db) (id : String) : Nat × Body :=
  match GetService env db id with
  | (service, none) => (200, .jsonService service)
  | (_, some (.notFound msg)) =>
      (404, .text ("service handler error: \n " ++ msg ++
        " \n  service_code: " ++ id ++ " not in repository"))
  | (_, some (.backend _)) => (500, .text (statusText 500))

/-- Environment of one `submitRequest` handler invocation: the
`IsValidServiceCode` probe and the `SubmitRequest` call each construct their
own backend session. -/
structure HandlerEnv where
  checkEnv : GetEnv
  submitEnv : SubmitEnv

/-- `submitRequest` (handler/request/requests.go): 422 on malformed JSON
(`body = none`), 400 when the service code is invalid, 400 when neither an
address nor a non-zero coordinate is present, otherwise delegate to
`SubmitRequest` mapping errors to 500 and success to 201. -/
def submitRequestHandler (env : HandlerEnv) (db : Db) (body : Option Request)
    (accountID : String) : (Nat × Body) × Db :=
  match body with
  | none => (clientError 422, db)
  | some req =>
      if IsValidServiceCode env.checkEnv db req.serviceCode = false then
        (clientError 400, db)
      else if req.address = "" ∧ (req.latitude = 0 ∧ req.longitude = 0) then
        (clientError 400, db)
      else
        match SubmitRequest env.submitEnv db req accountID with
        | ((_, some _), db2) => ((500, .text (statusText 500)), db2)
        | ((resp, none), db2) => ((201, .jsonRequestResponse resp), db2)

/-- The identifier `SubmitRequest` generates in a given environment. -/
def newIdOf (env : SubmitEnv) : String :=
  "SR-" ++ ulidString (ulidTimestamp env.idTime) (env.entropy.bytes env.idTime.unixNano)

/-- The record `SubmitRequest` persists in a given environment. -/
def storedOf (env : SubmitEnv) (db : Db) (req : Request) : Request :=
  { req with serviceRequestID := newIdOf env,
             requestedDateTime := formatRFC3339 env.stampTime,
             status := RequestOpen,
             serviceName := (GetService env.svcEnv db req.serviceCode).1.serviceName,
             agencyResponsible := (GetService env.svcEnv db req.serviceCode).1.group }

/-- The user record `trackUserRequest` writes on its success path. -/
def trackedUserOf (db : Db) (acct newId : String) : User :=
  let user := (lookupKey db.users acct).getD { User.empty with accountID := acct }
  { user with submittedRequests := user.submittedRequests ++ [newId] }

/-- Which fields of a `Service` the `dynamodbattribute.UnmarshalMap` call had
already filled when it stopped: the decoder walks the attribute map in Go map
iteration order (any order), decoding one attribute into the matching struct
field at a time, and returns at the first malformed attribute, so on failure
each field independently either holds the stored attribute's value or is
still the zero value. -/
structure ServiceMask where
  serviceCode : Bool
  serviceName : Bool
  description : Bool
  metadata : Bool
  type : Bool
  keywords : Bool
  group : Bool
deriving DecidableEq, Repr

/-- The partially decoded `Service` a failing `UnmarshalMap` leaves in the
output struct, given the record the attributes held and the decode mask. -/
def applyServiceMask (m : ServiceMask) (s : Service) : Service :=
  { serviceCode := if m.serviceCode then s.serviceCode else "",
    serviceName := if m.serviceName then s.serviceName else "",
    description := if m.description then s.description else "",
    metadata := if m.metadata then s.metadata else false,
    type := if m.type then s.type else "",
    keywords := if m.keywords then s.keywords else [],
    group := if m.group then s.group else "" }

/-- Lookup environment refining `GetEnv` with the `UnmarshalMap`-failure
branch of `GetService` (repository.go lines 254-257): `unmarshalFail` injects
a decode failure of the fetched item (possible only when an item is present —
unmarshalling a nil item is a no-op success), and `mask` records the fields
the decoder had filled before hitting the malformed attribute. -/
structure GetEnvU where
  clientFail : Bool
  getFail : Bool
  unmarshalFail : Bool
  mask : ServiceMask
deriving DecidableEq, Repr

/-- `GetService` (repository.go) with all four error branches, including the
partial-decode branch: on an `UnmarshalMap` failure Go executes
`return service, fmt.Errorf(...)`, handing the partially decoded `Service`
to the caller alongside the backend-class error. -/
def GetServiceFull (env : GetEnvU) (db : Db) (code : String) :
    Service × Option RepoErr :=
  if env.clientFail then
    (Service.empty, some (.backend "unable to establish session with AWS"))
  else if env.getFail then
    (Service.empty, some (.backend "unable to get specified service from database"))
  else
    match lookupKey db.services code with
    | none =>
        -- result.Item is nil: UnmarshalMap is a no-op success, the zero
        -- Service has an empty code, and the not-found branch is taken.
        (Service.empty, some (.notFound "service not found"))
    | some r =>
        if env.unmarshalFail then
          (applyServiceMask env.mask r,
            some (.backend "Failed to unmarshal service record from database"))
        else if r.serviceCode = "" then
          (r, some (.notFound "service not found"))
        else
          (r, none)

/-- Failure environment for one `SubmitRequest` execution whose inner Service
lookup is modelled with the full (partial-decode-aware) `GetServiceFull`. -/
structure SubmitEnvU where
  clientFail : Bool
  entropy : EntropySrc
  idTime : GoTime
  stampTime : GoTime
  svcEnv : GetEnvU
  marshalFail : Bool
  putFail : Bool
  trackEnv : TrackEnv

/-- `SubmitRequest` (repository.go), identical to `SubmitRequest` above
except that the inner `GetService` call carries all four of its error
branches (`GetServiceFull`); `service, _ := GetService(...)` still uses the
returned value whatever the discarded error was. -/
def SubmitRequestFull (env : SubmitEnvU) (db : Db) (request : Request)
    (accountID : String) : (RequestResponse × Option RepoErr) × Db :=
  if env.clientFail then
    ((RequestResponse.empty, some (.backend "unable to establish session with AWS")), db)
  else
    match genRequestID env.entropy env.idTime with
    | .error _ =>
        ((RequestResponse.empty, some (.backend "failed to generate unique id for new request")), db)
    | .ok requestID =>
        let request1 := { request with serviceRequestID := requestID }
        let request2 := { request1 with requestedDateTime := formatRFC3339 env.stampTime }
        let request3 := { request2 with status := RequestOpen }
        let service := (GetServiceFull env.svcEnv db request3.serviceCode).1
        let request4 := { request3 with serviceName := service.serviceName,
                                        agencyResponsible := service.group }
        if env.marshalFail then
          ((RequestResponse.empty, some (.backend "Failed to marshal request")), db)
        else if env.putFail then
          ((RequestResponse.empty, some (.backend "failed to put new request in database")), db)
        else
          let db2 := { db with requests := insertKey db.requests requestID request4 }
          let response : RequestResponse :=
            { serviceRequestID := requestID, serviceNotice := "", accountID := accountID }
          match trackUserRequest env.trackEnv db2 requestID accountID with
          | (some _, db3) =>
              ((response, some (.backend "failed to append new request to list of requests for account")), db3)
          | (none, db3) => ((response, none), db3)

/-- The identifier `SubmitRequestFull` generates in a given environment. -/
def newIdOfFull (env : SubmitEnvU) : String :=
  "SR-" ++ ulidString (ulidTimestamp env.idTime) (env.entropy.bytes env.idTime.unixNano)

/-- The record `SubmitRequestFull` persists in a given environment. -/
def storedOfFull (env : SubmitEnvU) (db : Db) (req : Request) : Request :=
  { req with serviceRequestID := newIdOfFull env,
             requestedDateTime := formatRFC3339 env.stampTime,
             status := RequestOpen,
             serviceName := (GetServiceFull env.svcEnv db req.serviceCode).1.serviceName,
             agencyResponsible := (GetServiceFull env.svcEnv db req.serviceCode).1.group }

/-- Concrete entropy source for witnesses: a healthy PRNG whose stream is the
all-zero byte string for every seed. -/
def exEntropy : EntropySrc := { readFail := false, bytes := fun _ => List.replicate 10 0 }

/-- Concrete clock reading for witnesses. -/
def exTime : GoTime :=
  { year := 2019, month := 1, day := 2, hour := 3, minute := 4, second := 5,
    tz := "Z", unixNano := 1546398245000000000 }

/-- Concrete Service record for witnesses (spec section 8 scenario). -/
def svc003 : Service :=
  { serviceCode := "003", serviceName := "Curb defect", description := "",
    metadata := false, type := "", keywords := [], group := "street" }

/-- Concrete store for witnesses: one service, no other records. -/
def exDb : Db := { services := [("003", svc003)], requests := [], users := [], cities := [] }

/-- Lookup environment with no injected failures. -/
def cleanGet : GetEnv := { clientFail := false, getFail := false }

/-- Lookup environment whose session creation fails. -/
def failGet : GetEnv := { clientFail := true, getFail := false }

/-- Fully healthy submission environment. -/
def exSubmitEnv : SubmitEnv :=
  { clientFail := false, entropy := exEntropy, idTime := exTime, stampTime := exTime,
    svcEnv := cleanGet, marshalFail := false, putFail := false,
    trackEnv := { clientFail := false, updateFail := false } }

/-- Submission environment whose user-tracking update fails. -/
def exSubmitEnvTrackFail : SubmitEnv :=
  { exSubmitEnv with trackEnv := { clientFail := true, updateFail := false } }

/-- Decode mask of a failing unmarshal that had already filled the key and
the human-readable name before hitting the malformed attribute. -/
def exMaskName : ServiceMask :=
  { serviceCode := true, serviceName := true, description := false,
    metadata := false, type := false, keywords := false, group := false }

/-- Lookup environment whose `UnmarshalMap` call fails after decoding the
code and name attributes. -/
def exGetEnvUnmarshal : GetEnvU :=
  { clientFail := false, getFail := false, unmarshalFail := true, mask := exMaskName }

/-- Submission environment whose inner Service lookup fails to deserialize. -/
def exSubmitEnvUnmarshal : SubmitEnvU :=
  { clientFail := false, entropy := exEntropy, idTime := exTime, stampTime := exTime,
    svcEnv := exGetEnvUnmarshal, marshalFail := false, putFail := false,
    trackEnv := { clientFail := false, updateFail := false } }

/-- Submission environment whose inner Service lookup session fails. -/
def exSubmitEnvUFail : SubmitEnvU :=
  { exSubmitEnvUnmarshal with
    svcEnv := { clientFail := true, getFail := false, unmarshalFail := false,
                mask := exMaskName } }

/-- Healthy handler environment. -/
def exHandlerEnv : HandlerEnv := { checkEnv := cleanGet, submitEnv := exSubmitEnv }

/-- Concrete valid submission input. -/
def exReq : Request := { Request.empty with serviceCode := "003", address := "8th Ave" }

/-- Concrete input with a service code absent from the store. -/
def exReqUnknown : Request :=
  { Request.empty with serviceCode := "999", address := "8th Ave" }

/-- Concrete input with no address and zero coordinates. -/
def exReqNoLoc : Request := { Request.empty with serviceCode := "003" }

/-- Concrete input with no address but a non-zero longitude. -/
def exReqCoord : Request := { Request.empty with serviceCode := "003", longitude := 5 }

/-- Healthy update environment. -/
def exUpdEnv : UpdateEnv :=
  { clientFail := false, time := exTime, marshalFail := false, putFail := false }

/-- Update environment whose session creation fails. -/
def exUpdEnvFail : UpdateEnv :=
  { clientFail := true, time := exTime, marshalFail := false, putFail := false }

/-- Concrete update input: an existing id, fields to overwrite. -/
def exReqUpd : Request :=
  { Request.empty with
    serviceRequestID := "SR-1", serviceCode := "003",
    address := "Main St", status := "closed" }

theorem formatRFC3339_ne_empty (t : GoTime) : formatRFC3339 t ≠ "" := by
  intro h
  have hl := congrArg String.length h
  rw [formatRFC3339] at hl
  simp +decide [String.length_append] at hl

theorem sr_ne_empty (s : String) : "SR-" ++ s ≠ "" := by
  intro h
  have hl := congrArg String.length h
  simp [String.length_append] at hl
  exact absurd hl.1 (by decide)

theorem newIdOf_ne_empty (env : SubmitEnv) : newIdOf env ≠ "" := sr_ne_empty _

theorem lookupKey_insertKey_self {α : Type} (l : List (String × α)) (k : String) (v : α) :
    lookupKey (insertKey l k v) k = some v := by
  simp [lookupKey, insertKey, List.find?]

theorem lookupKey_eq_some_mem {α : Type} {l : List (String × α)} {k : String} {v : α}
    (h : lookupKey l k = some v) : (k, v) ∈ l := by
  unfold lookupKey at h
  cases hf : l.find? (fun p => p.1 == k) with
  | none => rw [hf] at h; cases h
  | some p =>
    rw [hf] at h
    have hp := List.find?_some hf
    have hm := List.mem_of_find?_eq_some hf
    have h1 : p.1 = k := by simpa using hp
    have h2 : p.2 = v := by simpa using h
    have hpkv : p = (k, v) := by
      cases p; simp_all
    rwa [hpkv] at hm

/-- Characterization of `SubmitRequest` when every backend step succeeds. -/
theorem submit_success_eq (env : SubmitEnv) (db : Db) (req : Request) (acct : String)
    (h1 : env.clientFail = false) (h2 : env.entropy.readFail = false)
    (h3 : env.marshalFail = false) (h4 : env.putFail = false)
    (h5 : env.trackEnv.clientFail = false) (h6 : env.trackEnv.updateFail = false) :
    SubmitRequest env db req acct =
      (({ serviceRequestID := newIdOf env, serviceNotice := "", accountID := acct }, none),
       { db with
         requests := insertKey db.requests (newIdOf env) (storedOf env db req),
         users := insertKey db.users acct (trackedUserOf db acct (newIdOf env)) }) := by
  simp [SubmitRequest, genRequestID, h1, h2, h3, h4, trackUserRequest, h5, h6,
    newIdOf, storedOf, trackedUserOf]

/-- Characterization of `SubmitRequest` when only the user-tracking step fails. -/
theorem submit_track_fail_eq (env : SubmitEnv) (db : Db) (req : Request) (acct : String)
    (h1 : env.clientFail = false) (h2 : env.entropy.readFail = false)
    (h3 : env.marshalFail = false) (h4 : env.putFail = false)
    (h5 : env.trackEnv.clientFail = true ∨ env.trackEnv.updateFail = true) :
    SubmitRequest env db req acct =
      (({ serviceRequestID := newIdOf env, serviceNotice := "", accountID := acct },
        some (.backend "failed to append new request to list of requests for account")),
       { db with
         requests := insertKey db.requests (newIdOf env) (storedOf env db req) }) := by
  rcases h5 with h5 | h5
  · simp [SubmitRequest, genRequestID, h1, h2, h3, h4, trackUserRequest, h5,
      newIdOf, storedOf]
  · by_cases h5c : env.trackEnv.clientFail = true
    · simp [SubmitRequest, genRequestID, h1, h2, h3, h4, trackUserRequest, h5c,
        newIdOf, storedOf]
    · simp at h5c
      simp [SubmitRequest, genRequestID, h1, h2, h3, h4, trackUserRequest, h5, h5c,
        newIdOf, storedOf]

/-- Characterization of `SubmitRequestFull` when every backend step except
possibly the inner Service lookup succeeds. -/
theorem submitFull_success_eq (env : SubmitEnvU) (db : Db) (req : Request) (acct : String)
    (h1 : env.clientFail = false) (h2 : env.entropy.readFail = false)
    (h3 : env.marshalFail = false) (h4 : env.putFail = false)
    (h5 : env.trackEnv.clientFail = false) (h6 : env.trackEnv.updateFail = false) :
    SubmitRequestFull env db req acct =
      (({ serviceRequestID := newIdOfFull env, serviceNotice := "", accountID := acct }, none),
       { db with
         requests := insertKey db.requests (newIdOfFull env) (storedOfFull env db req),
         users := insertKey db.users acct (trackedUserOf db acct (newIdOfFull env)) }) := by
  simp [SubmitRequestFull, genRequestID, h1, h2, h3, h4, trackUserRequest, h5, h6,
    newIdOfFull, storedOfFull, trackedUserOf]

/-- On the session-failure, transport-failure and absent-record paths (where
`UnmarshalMap` cannot fail), `GetServiceFull` returns the zero value. -/
theorem getServiceFull_value_empty (env : GetEnvU) (db : Db) (code : String)
    (h : env.clientFail = true ∨ env.getFail = true ∨ lookupKey db.services code = none) :
    (GetServiceFull env db code).1 = Service.empty := by
  by_cases hc : env.clientFail = true
  · simp [GetServiceFull, hc]
  · simp at hc
    by_cases hg : env.getFail = true
    · simp [GetServiceFull, hc, hg]
    · simp at hg
      rcases h with h | h | h
      · exact absurd h (by simp [hc])
      · exact absurd h (by simp [hg])
      · simp [GetServiceFull, hc, hg, h]

/-- Claim C1: for every input request with a service code accepted by
`IsValidServiceCode`, a fully successful `SubmitRequest` persists a record
whose status is `open` (never `closed`), whose `ServiceRequestID` is the
freshly generated identifier (caller-supplied ids are ignored), whose
`RequestedDateTime` is the non-empty RFC3339 rendering of the clock reading,
and whose service code equals the input's; a subsequent `GetRequest` on the
new identifier returns exactly the persisted record. -/
theorem submitRequest_success_persists_open
    (env : SubmitEnv) (vEnv : GetEnv) (db : Db) (req : Request) (acct : String)
    (hv : IsValidServiceCode vEnv db req.serviceCode = true)
    (h1 : env.clientFail = false) (h2 : env.entropy.readFail = false)
    (h3 : env.marshalFail = false) (h4 : env.putFail = false)
    (h5 : env.trackEnv.clientFail = false) (h6 : env.trackEnv.updateFail = false) :
    (SubmitRequest env db req acct).1 =
      ({ serviceRequestID := newIdOf env, serviceNotice := "", accountID := acct }, none) ∧
    lookupKey (SubmitRequest env db req acct).2.requests (newIdOf env) =
      some (storedOf env db req) ∧
    (storedOf env db req).status = RequestOpen ∧
    (storedOf env db req).status ≠ RequestClosed ∧
    (storedOf env db req).serviceRequestID = newIdOf env ∧
    (∀ x, SubmitRequest env db { req with serviceRequestID := x } acct =
      SubmitRequest env db req acct) ∧
    (storedOf env db req).requestedDateTime = formatRFC3339 env.stampTime ∧
    (storedOf env db req).requestedDateTime ≠ "" ∧
    (storedOf env db req).serviceCode = req.serviceCode ∧
    GetRequest { clientFail := false, getFail := false }
        (SubmitRequest env db req acct).2 (newIdOf env) =
      (storedOf env db req, none) := by
  have hs := submit_success_eq env db req acct h1 h2 h3 h4 h5 h6
  refine ⟨by rw [hs], ?_, rfl, ?_, rfl, ?_, rfl,
    formatRFC3339_ne_empty _, rfl, ?_⟩
  · rw [hs]
    exact lookupKey_insertKey_self _ _ _
  · simp +decide [storedOf, RequestOpen, RequestClosed]
  · intro x
    rw [submit_success_eq env db { req with serviceRequestID := x } acct h1 h2 h3 h4 h5 h6, hs]
    simp [storedOf]
  · rw [hs]
    simp [GetRequest, lookupKey_insertKey_self, storedOf, newIdOf_ne_empty env]

/-- Witness for C1 at a concrete store, input and environment. -/
theorem submitRequest_success_persists_open_witness :
    IsValidServiceCode cleanGet exDb exReq.serviceCode = true ∧
    (SubmitRequest exSubmitEnv exDb exReq "user1").1 =
      ({ serviceRequestID := newIdOf exSubmitEnv, serviceNotice := "",
         accountID := "user1" }, none) ∧
    lookupKey (SubmitRequest exSubmitEnv exDb exReq "user1").2.requests (newIdOf exSubmitEnv) =
      some (storedOf exSubmitEnv exDb exReq) ∧
    (storedOf exSubmitEnv exDb exReq).status = RequestOpen ∧
    (storedOf exSubmitEnv exDb exReq).status ≠ RequestClosed ∧
    (storedOf exSubmitEnv exDb exReq).serviceRequestID = newIdOf exSubmitEnv ∧
    SubmitRequest exSubmitEnv exDb ({ exReq with serviceRequestID := "SR-CALLER-SUPPLIED" })
      "user1" = SubmitRequest exSubmitEnv exDb exReq "user1" ∧
    (storedOf exSubmitEnv exDb exReq).requestedDateTime = formatRFC3339 exSubmitEnv.stampTime ∧
    (storedOf exSubmitEnv exDb exReq).requestedDateTime ≠ "" ∧
    (storedOf exSubmitEnv exDb exReq).serviceCode = exReq.serviceCode ∧
    GetRequest { clientFail := false, getFail := false }
        (SubmitRequest exSubmitEnv exDb exReq "user1").2 (newIdOf exSubmitEnv) =
      (storedOf exSubmitEnv exDb exReq, none) := by
  have T := submitRequest_success_persists_open exSubmitEnv cleanGet exDb exReq "user1"
    (by decide) rfl rfl rfl rfl rfl rfl
  exact ⟨by decide, T.1, T.2.1, T.2.2.1, T.2.2.2.1, T.2.2.2.2.1,
    T.2.2.2.2.2.1 "SR-CALLER-SUPPLIED", T.2.2.2.2.2.2.1, T.2.2.2.2.2.2.2.1,
    T.2.2.2.2.2.2.2.2.1, T.2.2.2.2.2.2.2.2.2⟩

/-- Claim C2: a service code absent from the Service collection is rejected by
`IsValidServiceCode`, a failing backend call also yields false, and the
submit handler given such a code answers with the client-class 400 response
and leaves the store unchanged. -/
theorem isValidServiceCode_rejects_unknown
    (env : GetEnv) (db : Db) (c : String)
    (henv : HandlerEnv) (db2 : Db) (req : Request) (acct : String) :
    (lookupKey db.services c = none → IsValidServiceCode env db c = false) ∧
    (env.clientFail = true ∨ env.getFail = true → IsValidServiceCode env db c = false) ∧
    (lookupKey db2.services req.serviceCode = none →
      submitRequestHandler henv db2 (some req) acct = (clientError 400, db2)) := by
  refine ⟨?_, ?_, ?_⟩
  · intro h
    simp [IsValidServiceCode, h]
  · intro h
    rcases h with h | h <;> simp [IsValidServiceCode, h]
  · intro h
    have hval : IsValidServiceCode henv.checkEnv db2 req.serviceCode = false := by
      simp [IsValidServiceCode, h]
    simp [submitRequestHandler, hval]

/-- Witness for C2: unknown code 999 rejected, backend failure rejected,
handler answers 400 with an unchanged store. -/
theorem isValidServiceCode_rejects_unknown_witness :
    IsValidServiceCode cleanGet exDb "999" = false ∧
    IsValidServiceCode failGet exDb "003" = false ∧
    submitRequestHandler exHandlerEnv exDb (some exReqUnknown) "user1" =
      (clientError 400, exDb) := by
  have T := isValidServiceCode_rejects_unknown cleanGet exDb "999"
    exHandlerEnv exDb exReqUnknown "user1"
  have T2 := isValidServiceCode_rejects_unknown failGet exDb "003"
    exHandlerEnv exDb exReqUnknown "user1"
  exact ⟨T.1 rfl, T2.2.1 (Or.inl rfl), T.2.2 rfl⟩

/-- Claim C3: an input with empty address and both coordinates zero is always
answered with the client-class 400 response, whatever the other fields and
the environment, and the store is unchanged. -/
theorem submitRequest_missing_location_rejected
    (env : HandlerEnv) (db : Db) (req : Request) (acct : String)
    (ha : req.address = "") (hlat : req.latitude = 0) (hlon : req.longitude = 0) :
    submitRequestHandler env db (some req) acct = (clientError 400, db) := by
  unfold submitRequestHandler
  by_cases h : IsValidServiceCode env.checkEnv db req.serviceCode = false
  · simp [h]
  · simp [h, ha, hlat, hlon]

/-- Witness for C3 at a concrete location-free input. -/
theorem submitRequest_missing_location_rejected_witness :
    exReqNoLoc.address = "" ∧ exReqNoLoc.latitude = 0 ∧ exReqNoLoc.longitude = 0 ∧
    submitRequestHandler exHandlerEnv exDb (some exReqNoLoc) "user1" =
      (clientError 400, exDb) :=
  ⟨rfl, rfl, rfl,
    submitRequest_missing_location_rejected exHandlerEnv exDb exReqNoLoc "user1" rfl rfl rfl⟩

/-- Claim C4 (code bug): `genRequestID` seeds its PRNG with `t.UnixNano()` and
takes the ULID timestamp from the same reading, so two invocations whose
clocks read the same instant return the identical identifier — they are never
distinct, contradicting the required collision-freedom under concurrent
invocation. -/
theorem genRequestID_same_instant_equal (src : EntropySrc) (t1 t2 : GoTime)
    (h : t1.unixNano = t2.unixNano) :
    genRequestID src t1 = genRequestID src t2 := by
  simp [genRequestID, ulidTimestamp, h]

/-- Witness for C4: two invocations at the same concrete instant yield the
same concrete identifier. -/
theorem genRequestID_same_instant_equal_witness :
    exTime.unixNano = exTime.unixNano ∧
    genRequestID exEntropy exTime = genRequestID exEntropy exTime ∧
    genRequestID exEntropy exTime = Except.ok "SR-01D06898480000000000000000" :=
  ⟨rfl, genRequestID_same_instant_equal exEntropy exTime exTime rfl, by rfl⟩

/-- Claim C5: when the Request write succeeds but the append to the
submitter's list fails, `SubmitRequest` returns an error, the response still
carries the new identifier, the Request record stays persisted (no rollback),
and the Users table is unchanged. -/
theorem submitRequest_track_failure_no_rollback
    (env : SubmitEnv) (db : Db) (req : Request) (acct : String)
    (h1 : env.clientFail = false) (h2 : env.entropy.readFail = false)
    (h3 : env.marshalFail = false) (h4 : env.putFail = false)
    (h5 : env.trackEnv.clientFail = true ∨ env.trackEnv.updateFail = true) :
    (SubmitRequest env db req acct).1.1 =
      { serviceRequestID := newIdOf env, serviceNotice := "", accountID := acct } ∧
    errIsBackend (SubmitRequest env db req acct).1.2 = true ∧
    lookupKey (SubmitRequest env db req acct).2.requests (newIdOf env) =
      some (storedOf env db req) ∧
    (SubmitRequest env db req acct).2.users = db.users := by
  have hs := submit_track_fail_eq env db req acct h1 h2 h3 h4 h5
  rw [hs]
  exact ⟨rfl, rfl, lookupKey_insertKey_self _ _ _, rfl⟩

/-- Witness for C5 with a failing tracking step. -/
theorem submitRequest_track_failure_no_rollback_witness :
    (SubmitRequest exSubmitEnvTrackFail exDb exReq "user1").1.1 =
      { serviceRequestID := newIdOf exSubmitEnvTrackFail, serviceNotice := "",
        accountID := "user1" } ∧
    errIsBackend (SubmitRequest exSubmitEnvTrackFail exDb exReq "user1").1.2 = true ∧
    lookupKey (SubmitRequest exSubmitEnvTrackFail exDb exReq "user1").2.requests
      (newIdOf exSubmitEnvTrackFail) = some (storedOf exSubmitEnvTrackFail exDb exReq) ∧
    (SubmitRequest exSubmitEnvTrackFail exDb exReq "user1").2.users = exDb.users :=
  submitRequest_track_failure_no_rollback exSubmitEnvTrackFail exDb exReq "user1"
    rfl rfl rfl rfl (Or.inl rfl)

/-- Claim C6 counterexample: with the `UnmarshalMap`-failure branch of the
Service lookup modelled (repository.go lines 254-257), a failing lookup does
NOT always leave the copied fields blank: a deserialization failure whose
decoder had already filled `service_name` persists a request whose
`serviceName` is the partially decoded `Curb defect`, not the empty string,
while the lookup step reports a backend-class error. -/
theorem submitRequest_unmarshal_failure_nonblank_name :
    errIsBackend (GetServiceFull exGetEnvUnmarshal exDb exReq.serviceCode).2 = true ∧
    (SubmitRequestFull exSubmitEnvUnmarshal exDb exReq "user1").1.2 = none ∧
    lookupKey (SubmitRequestFull exSubmitEnvUnmarshal exDb exReq "user1").2.requests
      (newIdOfFull exSubmitEnvUnmarshal) =
      some (storedOfFull exSubmitEnvUnmarshal exDb exReq) ∧
    (storedOfFull exSubmitEnvUnmarshal exDb exReq).serviceName = "Curb defect" ∧
    (storedOfFull exSubmitEnvUnmarshal exDb exReq).serviceName ≠ "" := by
  refine ⟨rfl, ?_, ?_, rfl, by decide⟩
  · decide
  · decide

/-- Claim C6 (amended): when the inner Service lookup fails, the create is
not aborted — the request is persisted and no error is returned from the
lookup step; the persisted `serviceName` and `agencyResponsible` are exactly
what the failing lookup returned, which is blank when the session could not
be created, the `GetItem` call failed, or the record is absent, but is the
partially decoded name and group when the fetched record failed to
deserialize. -/
theorem submitRequest_service_lookup_failure_best_effort
    (env : SubmitEnvU) (db : Db) (req : Request) (acct : String)
    (hfail : ((GetServiceFull env.svcEnv db req.serviceCode).2).isSome = true)
    (h1 : env.clientFail = false) (h2 : env.entropy.readFail = false)
    (h3 : env.marshalFail = false) (h4 : env.putFail = false)
    (h5 : env.trackEnv.clientFail = false) (h6 : env.trackEnv.updateFail = false) :
    (SubmitRequestFull env db req acct).1.2 = none ∧
    lookupKey (SubmitRequestFull env db req acct).2.requests (newIdOfFull env) =
      some (storedOfFull env db req) ∧
    (storedOfFull env db req).serviceName =
      (GetServiceFull env.svcEnv db req.serviceCode).1.serviceName ∧
    (storedOfFull env db req).agencyResponsible =
      (GetServiceFull env.svcEnv db req.serviceCode).1.group ∧
    (env.svcEnv.clientFail = true ∨ env.svcEnv.getFail = true ∨
        lookupKey db.services req.serviceCode = none →
      (storedOfFull env db req).serviceName = "" ∧
      (storedOfFull env db req).agencyResponsible = "") := by
  have hs := submitFull_success_eq env db req acct h1 h2 h3 h4 h5 h6
  refine ⟨by rw [hs], ?_, rfl, rfl, ?_⟩
  · rw [hs]
    exact lookupKey_insertKey_self _ _ _
  · intro hcase
    have hempty := getServiceFull_value_empty env.svcEnv db req.serviceCode hcase
    constructor <;> simp [storedOfFull, hempty, Service.empty]

/-- Witness for the amended C6 with a failing Service lookup session. -/
theorem submitRequest_service_lookup_failure_best_effort_witness :
    ((GetServiceFull exSubmitEnvUFail.svcEnv exDb exReq.serviceCode).2).isSome = true ∧
    (SubmitRequestFull exSubmitEnvUFail exDb exReq "user1").1.2 = none ∧
    lookupKey (SubmitRequestFull exSubmitEnvUFail exDb exReq "user1").2.requests
      (newIdOfFull exSubmitEnvUFail) = some (storedOfFull exSubmitEnvUFail exDb exReq) ∧
    (storedOfFull exSubmitEnvUFail exDb exReq).serviceName = "" ∧
    (storedOfFull exSubmitEnvUFail exDb exReq).agencyResponsible = "" := by
  have T := submitRequest_service_lookup_failure_best_effort exSubmitEnvUFail exDb exReq
    "user1" rfl rfl rfl rfl rfl rfl rfl
  exact ⟨rfl, T.1, T.2.1, (T.2.2.2.2 (Or.inl rfl)).1, (T.2.2.2.2 (Or.inl rfl)).2⟩

/-- Claim C7: `UpdateRequest` stamps `updatedDateTime` with the current
instant and overwrites the full stored record with the input (no merge of old
values); `GetRequest` afterwards returns exactly the updated record, and the
only failure mode of `UpdateRequest` is a backend-class error. -/
theorem updateRequest_overwrites_record
    (env : UpdateEnv) (db : Db) (req : Request) (acct : String)
    (hid : req.serviceRequestID ≠ "")
    (h1 : env.clientFail = false) (h2 : env.marshalFail = false) (h3 : env.putFail = false) :
    (UpdateRequest env db req acct).1 =
      ({ serviceRequestID := req.serviceRequestID, serviceNotice := "", accountID := acct },
        none) ∧
    lookupKey (UpdateRequest env db req acct).2.requests req.serviceRequestID =
      some ({ req with updatedDateTime := formatRFC3339 env.time }) ∧
    GetRequest { clientFail := false, getFail := false }
        (UpdateRequest env db req acct).2 req.serviceRequestID =
      ({ req with updatedDateTime := formatRFC3339 env.time }, none) ∧
    (∀ env2 : UpdateEnv, ∀ e, (UpdateRequest env2 db req acct).1.2 = some e →
      e.isBackend = true) := by
  have hu : UpdateRequest env db req acct =
      (({ serviceRequestID := req.serviceRequestID, serviceNotice := "", accountID := acct },
        none),
       { db with requests := (insertKey db.requests req.serviceRequestID
            ({ req with updatedDateTime := formatRFC3339 env.time })) }) := by
    simp [UpdateRequest, h1, h2, h3]
  refine ⟨by rw [hu], ?_, ?_, ?_⟩
  · rw [hu]
    exact lookupKey_insertKey_self _ _ _
  · rw [hu]
    simp [GetRequest, lookupKey_insertKey_self, hid]
  · intro env2 e he
    by_cases hcf : env2.clientFail = true
    · simp [UpdateRequest, hcf] at he
      subst he
      rfl
    · simp at hcf
      by_cases hmf : env2.marshalFail = true
      · simp [UpdateRequest, hcf, hmf] at he
        subst he
        rfl
      · simp at hmf
        by_cases hpf : env2.putFail = true
        · simp [UpdateRequest, hcf, hmf, hpf] at he
          subst he
          rfl
        · simp at hpf
          simp [UpdateRequest, hcf, hmf, hpf] at he

/-- Witness for C7 at a concrete update. -/
theorem updateRequest_overwrites_record_witness :
    exReqUpd.serviceRequestID ≠ "" ∧
    (UpdateRequest exUpdEnv exDb exReqUpd "user1").1 =
      ({ serviceRequestID := exReqUpd.serviceRequestID, serviceNotice := "",
         accountID := "user1" }, none) ∧
    lookupKey (UpdateRequest exUpdEnv exDb exReqUpd "user1").2.requests
      exReqUpd.serviceRequestID =
      some ({ exReqUpd with updatedDateTime := formatRFC3339 exUpdEnv.time }) ∧
    GetRequest { clientFail := false, getFail := false }
        (UpdateRequest exUpdEnv exDb exReqUpd "user1").2 exReqUpd.serviceRequestID =
      ({ exReqUpd with updatedDateTime := formatRFC3339 exUpdEnv.time }, none) ∧
    RepoErr.isBackend (RepoErr.backend "unable to establish session with AWS") = true := by
  have T := updateRequest_overwrites_record exUpdEnv exDb exReqUpd "user1" (by decide) rfl rfl rfl
  exact ⟨by decide, T.1, T.2.1, T.2.2.1,
    T.2.2.2 exUpdEnvFail (RepoErr.backend "unable to establish session with AWS") rfl⟩

/-- Claim C8: a key with no record yields the typed not-found error (with the
zero value, never a silently-returned entity), and the service handler
answers 404 with a body naming the missing id. -/
theorem getService_unknown_id_not_found
    (env : GetEnv) (db : Db) (id : String)
    (hc : env.clientFail = false) (hg : env.getFail = false)
    (habs : lookupKey db.services id = none) :
    GetService env db id = (Service.empty, some (.notFound "service not found")) ∧
    getServiceHandler env db id =
      (404, .text ("service handler error: \n " ++ "service not found" ++
        " \n  service_code: " ++ id ++ " not in repository")) := by
  have h1 : GetService env db id = (Service.empty, some (.notFound "service not found")) := by
    simp [GetService, hc, hg, habs, Service.empty]
  exact ⟨h1, by simp [getServiceHandler, h1]⟩

/-- Witness for C8 at the unknown id 999. -/
theorem getService_unknown_id_not_found_witness :
    lookupKey exDb.services "999" = none ∧
    GetService cleanGet exDb "999" = (Service.empty, some (.notFound "service not found")) ∧
    getServiceHandler cleanGet exDb "999" =
      (404, .text ("service handler error: \n " ++ "service not found" ++
        " \n  service_code: " ++ "999" ++ " not in repository")) := by
  have T := getService_unknown_id_not_found cleanGet exDb "999" rfl rfl rfl
  exact ⟨rfl, T.1, T.2⟩

/-- Claim C9: with a valid service code, an empty address and at least one
non-zero coordinate, the location check passes and the handler creates the
request, answering 201 with the new identifier and persisting the record. -/
theorem location_check_single_nonzero_coordinate_passes
    (env : HandlerEnv) (db : Db) (req : Request) (acct : String)
    (hv : IsValidServiceCode env.checkEnv db req.serviceCode = true)
    (ha : req.address = "") (hco : req.latitude ≠ 0 ∨ req.longitude ≠ 0)
    (h1 : env.submitEnv.clientFail = false) (h2 : env.submitEnv.entropy.readFail = false)
    (h3 : env.submitEnv.marshalFail = false) (h4 : env.submitEnv.putFail = false)
    (h5 : env.submitEnv.trackEnv.clientFail = false)
    (h6 : env.submitEnv.trackEnv.updateFail = false) :
    submitRequestHandler env db (some req) acct =
      ((201, .jsonRequestResponse
        { serviceRequestID := newIdOf env.submitEnv, serviceNotice := "", accountID := acct }),
       (SubmitRequest env.submitEnv db req acct).2) ∧
    lookupKey (SubmitRequest env.submitEnv db req acct).2.requests (newIdOf env.submitEnv) =
      some (storedOf env.submitEnv db req) := by
  have hs := submit_success_eq env.submitEnv db req acct h1 h2 h3 h4 h5 h6
  have hloc : ¬(req.address = "" ∧ (req.latitude = 0 ∧ req.longitude = 0)) := by
    rcases hco with h | h <;> simp [h]
  constructor
  · simp [submitRequestHandler, hv, hloc, hs]
  · rw [hs]
    exact lookupKey_insertKey_self _ _ _

/-- Witness for C9: empty address, longitude 5. -/
theorem location_check_single_nonzero_coordinate_passes_witness :
    exReqCoord.address = "" ∧ exReqCoord.longitude ≠ 0 ∧
    submitRequestHandler exHandlerEnv exDb (some exReqCoord) "user1" =
      ((201, .jsonRequestResponse
        { serviceRequestID := newIdOf exSubmitEnv, serviceNotice := "", accountID := "user1" }),
       (SubmitRequest exSubmitEnv exDb exReqCoord "user1").2) ∧
    lookupKey (SubmitRequest exSubmitEnv exDb exReqCoord "user1").2.requests
      (newIdOf exSubmitEnv) = some (storedOf exSubmitEnv exDb exReqCoord) := by
  have T := location_check_single_nonzero_coordinate_passes exHandlerEnv exDb exReqCoord
    "user1" (by decide) rfl (Or.inr (by decide)) rfl rfl rfl rfl rfl rfl
  exact ⟨rfl, by decide, T.1, T.2⟩

/-- Claim C10: with a healthy backend, each point lookup signals the typed
not-found error exactly when the unmarshalled record's key field is the empty
string, and every entity returned without error has a non-empty key field. -/
theorem point_lookup_not_found_iff_empty_key
    (env : GetEnv) (db : Db) (k : String)
    (hc : env.clientFail = false) (hg : env.getFail = false) :
    (errIsNotFound (GetService env db k).2 = true ↔
      ((lookupKey db.services k).getD Service.empty).serviceCode = "") ∧
    ((GetService env db k).2 = none → (GetService env db k).1.serviceCode ≠ "") ∧
    (errIsNotFound (GetRequest env db k).2 = true ↔
      ((lookupKey db.requests k).getD Request.empty).serviceRequestID = "") ∧
    ((GetRequest env db k).2 = none → (GetRequest env db k).1.serviceRequestID ≠ "") ∧
    (errIsNotFound (GetUser env db k).2 = true ↔
      ((lookupKey db.users k).getD User.empty).accountID = "") ∧
    ((GetUser env db k).2 = none → (GetUser env db k).1.accountID ≠ "") ∧
    (errIsNotFound (GetCity env db k).2 = true ↔
      ((lookupKey db.cities k).getD City.empty).cityName = "") ∧
    ((GetCity env db k).2 = none → (GetCity env db k).1.cityName ≠ "") := by
  refine ⟨?_, ?_, ?_, ?_, ?_, ?_, ?_, ?_⟩
  · by_cases h : ((lookupKey db.services k).getD Service.empty).serviceCode = "" <;>
      simp [GetService, hc, hg, h, errIsNotFound]
  · by_cases h : ((lookupKey db.services k).getD Service.empty).serviceCode = "" <;>
      simp [GetService, hc, hg, h, errIsNotFound]
  · by_cases h : ((lookupKey db.requests k).getD Request.empty).serviceRequestID = "" <;>
      simp [GetRequest, hc, hg, h, errIsNotFound]
  · by_cases h : ((lookupKey db.requests k).getD Request.empty).serviceRequestID = "" <;>
      simp [GetRequest, hc, hg, h, errIsNotFound]
  · by_cases h : ((lookupKey db.users k).getD User.empty).accountID = "" <;>
      simp [GetUser, hc, hg, h, errIsNotFound]
  · by_cases h : ((lookupKey db.users k).getD User.empty).accountID = "" <;>
      simp [GetUser, hc, hg, h, errIsNotFound]
  · by_cases h : ((lookupKey db.cities k).getD City.empty).cityName = "" <;>
      simp [GetCity, hc, hg, h, errIsNotFound]
  · by_cases h : ((lookupKey db.cities k).getD City.empty).cityName = "" <;>
      simp [GetCity, hc, hg, h, errIsNotFound]

/-- Witness for C10 at a concrete store and key. -/
theorem point_lookup_not_found_iff_empty_key_witness :
    (errIsNotFound (GetService cleanGet exDb "003").2 = true ↔
      ((lookupKey exDb.services "003").getD Service.empty).serviceCode = "") ∧
    ((GetService cleanGet exDb "003").2 = none →
      (GetService cleanGet exDb "003").1.serviceCode ≠ "") ∧
    (errIsNotFound (GetRequest cleanGet exDb "003").2 = true ↔
      ((lookupKey exDb.requests "003").getD Request.empty).serviceRequestID = "") ∧
    ((GetRequest cleanGet exDb "003").2 = none →
      (GetRequest cleanGet exDb "003").1.serviceRequestID ≠ "") ∧
    (errIsNotFound (GetUser cleanGet exDb "003").2 = true ↔
      ((lookupKey exDb.users "003").getD User.empty).accountID = "") ∧
    ((GetUser cleanGet exDb "003").2 = none →
      (GetUser cleanGet exDb "003").1.accountID ≠ "") ∧
    (errIsNotFound (GetCity cleanGet exDb "003").2 = true ↔
      ((lookupKey exDb.cities "003").getD City.empty).cityName = "") ∧
    ((GetCity cleanGet exDb "003").2 = none →
      (GetCity cleanGet exDb "003").1.cityName ≠ "") :=
  point_lookup_not_found_iff_empty_key cleanGet exDb "003" rfl rfl

end Open311
